import Mathlib

/-!
Shallow embedding of the real-estate marketplace backend
(`src/backend/server.py`) for specification checking.

Modelling conventions:
* Each MongoDB collection is a `List` of entity records; the record
  structures mirror the pydantic models field for field.
* Timestamps are `Nat` values; every handler that calls
  `datetime.now(timezone.utc)` receives the current time as an explicit
  `now` argument.  Python `float` prices and ratings are modelled as `ℚ`.
* `find_one` is `List.find?` on the identifying key; `update_one` with
  `$set`/`$push`/`$inc` is `updateFirst` (MongoDB updates the first
  matching document); its `modified_count` is `modifiedCount`, which is
  zero when the matched document is left textually unchanged.
* An insert into a collection with a unique index (`startup_db_indexes`
  creates one for every identifying key) either appends the document or
  fails with `Err.duplicateKey`; a handler that does not catch that
  failure surfaces it as an unhandled server error, so
  `Err.statusCode .duplicateKey = 500`, while `raise HTTPException` is
  `Err.http status detail`.
* A handler returns `Except Err (result × DB)`; an `Except.error` result
  leaves the store unchanged (the model carries no partially-mutated
  store on the error path, matching where each `raise` occurs in the
  source).
-/

set_option autoImplicit false

namespace Server

/-- `UserRole` enum from the source. -/
inductive UserRole where
  | visitor | buyer | renter | lister | admin
deriving DecidableEq, Repr

/-- `VerificationStatus` enum from the source. -/
inductive VerificationStatus where
  | pending | verified | rejected | not_submitted
deriving DecidableEq, Repr

/-- `ListingStatus` enum from the source. -/
inductive ListingStatus where
  | active | hidden | pending | verified | rejected | expired
deriving DecidableEq, Repr

/-- `PropertyType` enum from the source. -/
inductive PropertyType where
  | residential | commercial | land | rental
deriving DecidableEq, Repr

/-- `MessageStatus` enum from the source. -/
inductive MessageStatus where
  | unread | read
deriving DecidableEq, Repr

/-- `target_type` of a review: `Literal["property", "lister"]`. -/
inductive ReviewTarget where
  | property | lister
deriving DecidableEq, Repr

/-- `User` pydantic model. -/
structure User where
  firebase_uid : String
  email : String
  name : String
  role : UserRole
  phone : Option String := none
  profile_picture : Option String := none
  verification_status : VerificationStatus := .not_submitted
  two_factor_enabled : Bool := false
  is_suspended : Bool := false
  is_banned : Bool := false
  created_at : Nat
  updated_at : Nat
deriving DecidableEq, Repr

/-- `UserCreate` payload. -/
structure UserCreate where
  firebase_uid : String
  email : String
  name : String
  role : UserRole
  phone : Option String := none
  profile_picture : Option String := none
deriving DecidableEq, Repr

/-- `UserUpdate` payload: every field optional, absent = `none`. -/
structure UserUpdate where
  name : Option String := none
  phone : Option String := none
  profile_picture : Option String := none
  two_factor_enabled : Option Bool := none
deriving DecidableEq, Repr

/-- `Location` embedded model. -/
structure Location where
  street : String
  city : String
  state : String
  zip_code : String
  country : String := "USA"
  latitude : Option ℚ := none
  longitude : Option ℚ := none
deriving DecidableEq, Repr

/-- `PriceHistory` embedded model. -/
structure PriceHistory where
  price : ℚ
  changed_at : Nat
  reason : Option String := none
deriving DecidableEq, Repr

/-- `Property` pydantic model. -/
structure Property where
  property_id : String
  title : String
  description : String
  property_type : PropertyType
  current_price : ℚ
  price_history : List PriceHistory := []
  location : Location
  bedrooms : Option Int := none
  bathrooms : Option ℚ := none
  area_sqft : Option ℚ := none
  year_built : Option Int := none
  amenities : List String := []
  images : List String := []
  documents : List String := []
  virtual_tour_url : Option String := none
  created_at : Nat
  updated_at : Nat
deriving DecidableEq, Repr

/-- `PropertyCreate` payload. -/
structure PropertyCreate where
  property_id : String
  title : String
  description : String
  property_type : PropertyType
  current_price : ℚ
  location : Location
  bedrooms : Option Int := none
  bathrooms : Option ℚ := none
  area_sqft : Option ℚ := none
  year_built : Option Int := none
  amenities : List String := []
  images : List String := []
  documents : List String := []
  virtual_tour_url : Option String := none
deriving DecidableEq, Repr

/-- `PropertyUpdate` payload: every field optional, absent = `none`. -/
structure PropertyUpdate where
  title : Option String := none
  description : Option String := none
  current_price : Option ℚ := none
  bedrooms : Option Int := none
  bathrooms : Option ℚ := none
  area_sqft : Option ℚ := none
  amenities : Option (List String) := none
  images : Option (List String) := none
  documents : Option (List String) := none
  virtual_tour_url : Option String := none
deriving DecidableEq, Repr

/-- `Listing` pydantic model. -/
structure Listing where
  listing_id : String
  property_id : String
  lister_firebase_uid : String
  status : ListingStatus := .pending
  views_count : Nat := 0
  verified_at : Option Nat := none
  verified_by_admin_uid : Option String := none
  rejection_reason : Option String := none
  expires_at : Option Nat := none
  created_at : Nat
  updated_at : Nat
deriving DecidableEq, Repr

/-- `ListingUpdate` payload: every field optional, absent = `none`. -/
structure ListingUpdate where
  status : Option ListingStatus := none
  rejection_reason : Option String := none
  expires_at : Option Nat := none
deriving DecidableEq, Repr

/-- `VerificationDocument` pydantic model. -/
structure VerificationDocument where
  document_id : String
  user_firebase_uid : String
  document_type : String
  document_url : String
  status : VerificationStatus := .pending
  verified_at : Option Nat := none
  verified_by_admin_uid : Option String := none
  rejection_reason : Option String := none
  created_at : Nat
deriving DecidableEq, Repr

/-- `VerificationDocumentCreate` payload. -/
structure VerificationDocumentCreate where
  document_id : String
  user_firebase_uid : String
  document_type : String
  document_url : String
deriving DecidableEq, Repr

/-- `Review` pydantic model. -/
structure Review where
  review_id : String
  reviewer_firebase_uid : String
  target_type : ReviewTarget
  target_id : String
  rating : ℚ
  comment : String
  created_at : Nat
  updated_at : Nat
deriving DecidableEq, Repr

/-- `ReviewCreate` payload. -/
structure ReviewCreate where
  review_id : String
  reviewer_firebase_uid : String
  target_type : ReviewTarget
  target_id : String
  rating : ℚ
  comment : String
deriving DecidableEq, Repr

/-- `Message` pydantic model. -/
structure Message where
  message_id : String
  sender_firebase_uid : String
  receiver_firebase_uid : String
  listing_id : Option String := none
  subject : Option String := none
  content : String
  status : MessageStatus := .unread
  sent_at : Nat
  read_at : Option Nat := none
deriving DecidableEq, Repr

/-- `Notification` pydantic model. -/
structure Notification where
  notification_id : String
  user_firebase_uid : Option String := none
  title : String
  message : String
  notification_type : String
  is_read : Bool := false
  created_at : Nat
deriving DecidableEq, Repr

/-- The document store: one list per collection used by the claims. -/
structure DB where
  users : List User := []
  properties : List Property := []
  listings : List Listing := []
  verification_documents : List VerificationDocument := []
  reviews : List Review := []
  messages : List Message := []
  notifications : List Notification := []
deriving DecidableEq, Repr

/-- Handler failure: `http` is `raise HTTPException(status, detail)`;
`duplicateKey` is an uncaught `DuplicateKeyError` from a unique index. -/
inductive Err where
  | http (status : Nat) (detail : String)
  | duplicateKey
deriving DecidableEq, Repr

/-- HTTP status a failure surfaces as: an uncaught `DuplicateKeyError`
becomes a generic 500 server error at the framework boundary. -/
def Err.statusCode : Err → Nat
  | .http s _ => s
  | .duplicateKey => 500

/-- Decidable equality of handler results, so that concrete runs can be
checked by `decide`. -/
instance {ε α : Type} [DecidableEq ε] [DecidableEq α] :
    DecidableEq (Except ε α) := fun x y =>
  match x, y with
  | .error a, .error b =>
    if h : a = b then .isTrue (by rw [h])
    else .isFalse (fun hc => h (Except.error.inj hc))
  | .error _, .ok _ => .isFalse (fun hc => Except.noConfusion hc)
  | .ok _, .error _ => .isFalse (fun hc => Except.noConfusion hc)
  | .ok a, .ok b =>
    if h : a = b then .isTrue (by rw [h])
    else .isFalse (fun hc => h (Except.ok.inj hc))

/-- `update_one`: rewrite the first document matching `p` with `f`. -/
def updateFirst {α : Type} (p : α → Bool) (f : α → α) : List α → List α
  | [] => []
  | x :: xs => if p x then f x :: xs else x :: updateFirst p f xs

/-- `update_one(..).modified_count`: 1 when the first matching document
is actually changed by the write, 0 when no document matches or the
matched document is left equal to itself. -/
def modifiedCount {α : Type} [DecidableEq α] (p : α → Bool) (f : α → α) :
    List α → Nat
  | [] => 0
  | x :: xs => if p x then (if f x = x then 0 else 1) else modifiedCount p f xs

/-- `insert_one` into a collection carrying a unique index on `keyOf`:
the store rejects a duplicate key with `DuplicateKeyError`. -/
def insertUnique {α : Type} (keyOf : α → String) (doc : α) (coll : List α) :
    Except Err (List α) :=
  if coll.any (fun x => keyOf x == keyOf doc) then .error .duplicateKey
  else .ok (coll ++ [doc])

/-- `db.users.find_one({"firebase_uid": uid})`. -/
def DB.findUser (db : DB) (uid : String) : Option User :=
  db.users.find? (fun u => u.firebase_uid == uid)

/-- `db.properties.find_one({"property_id": pid})`. -/
def DB.findProperty (db : DB) (pid : String) : Option Property :=
  db.properties.find? (fun p => p.property_id == pid)

/-- `db.listings.find_one({"listing_id": lid})`. -/
def DB.findListing (db : DB) (lid : String) : Option Listing :=
  db.listings.find? (fun l => l.listing_id == lid)

/-- `db.verification_documents.find_one({"document_id": did})`. -/
def DB.findDocument (db : DB) (did : String) : Option VerificationDocument :=
  db.verification_documents.find? (fun d => d.document_id == did)

/-- `POST /users` (`create_user`): pre-check the `firebase_uid`, 400 on
an existing user, otherwise build the `User` with defaults and insert. -/
def create_user (db : DB) (now : Nat) (u : UserCreate) :
    Except Err (User × DB) :=
  match db.findUser u.firebase_uid with
  | some _ => .error (.http 400 "User already exists")
  | none =>
    let user_obj : User :=
      { firebase_uid := u.firebase_uid, email := u.email, name := u.name
        role := u.role, phone := u.phone, profile_picture := u.profile_picture
        created_at := now, updated_at := now }
    match insertUnique User.firebase_uid user_obj db.users with
    | .error e => .error e
    | .ok users2 => .ok (user_obj, { db with users := users2 })

/-- `POST /properties` (`create_property`): pre-check `property_id`,
400 on duplicate; seed `price_history` with one "Initial listing" entry
at the creation price; insert. -/
def create_property (db : DB) (now : Nat) (p : PropertyCreate) :
    Except Err (Property × DB) :=
  match db.findProperty p.property_id with
  | some _ => .error (.http 400 "Property ID already exists")
  | none =>
    let property_obj : Property :=
      { property_id := p.property_id, title := p.title
        description := p.description, property_type := p.property_type
        current_price := p.current_price
        price_history := [{ price := p.current_price, changed_at := now
                            reason := some "Initial listing" }]
        location := p.location, bedrooms := p.bedrooms
        bathrooms := p.bathrooms, area_sqft := p.area_sqft
        year_built := p.year_built, amenities := p.amenities
        images := p.images, documents := p.documents
        virtual_tour_url := p.virtual_tour_url
        created_at := now, updated_at := now }
    match insertUnique Property.property_id property_obj db.properties with
    | .error e => .error e
    | .ok props2 => .ok (property_obj, { db with properties := props2 })

/-- `POST /verification-documents` (`create_verification_document`):
no duplicate pre-check in the source — the handler inserts directly, so
a duplicate `document_id` surfaces the store's `DuplicateKeyError`. -/
def create_verification_document (db : DB) (now : Nat)
    (d : VerificationDocumentCreate) :
    Except Err (VerificationDocument × DB) :=
  let doc_obj : VerificationDocument :=
    { document_id := d.document_id, user_firebase_uid := d.user_firebase_uid
      document_type := d.document_type, document_url := d.document_url
      created_at := now }
  match insertUnique VerificationDocument.document_id doc_obj
      db.verification_documents with
  | .error e => .error e
  | .ok docs2 => .ok (doc_obj, { db with verification_documents := docs2 })

/-- `POST /reviews` (`create_review`): 400 when the rating is outside
`[1, 5]`; otherwise insert directly (no duplicate pre-check). -/
def create_review (db : DB) (now : Nat) (r : ReviewCreate) :
    Except Err (Review × DB) :=
  if r.rating < 1 ∨ 5 < r.rating then
    .error (.http 400 "Rating must be between 1 and 5")
  else
    let review_obj : Review :=
      { review_id := r.review_id
        reviewer_firebase_uid := r.reviewer_firebase_uid
        target_type := r.target_type, target_id := r.target_id
        rating := r.rating, comment := r.comment
        created_at := now, updated_at := now }
    match insertUnique Review.review_id review_obj db.reviews with
    | .error e => .error e
    | .ok reviews2 => .ok (review_obj, { db with reviews := reviews2 })

/-- The `$set` of `update_user`: apply the non-`None` payload fields and
refresh `updated_at` (the source always sets `updated_at`). -/
def applyUserSet (w : UserUpdate) (now : Nat) (x : User) : User :=
  { x with
    name := w.name.getD x.name
    phone := match w.phone with | some v => some v | none => x.phone
    profile_picture := match w.profile_picture with
      | some v => some v | none => x.profile_picture
    two_factor_enabled := w.two_factor_enabled.getD x.two_factor_enabled
    updated_at := now }

/-- `PUT /users/{firebase_uid}` (`update_user`): 404 when absent, apply
the non-`None` payload fields plus `updated_at`, return the re-fetched
document (the unreachable re-fetch miss models the Python crash). -/
def update_user (db : DB) (now : Nat) (uid : String) (w : UserUpdate) :
    Except Err (User × DB) :=
  match db.findUser uid with
  | none => .error (.http 404 "User not found")
  | some _ =>
    let users2 := updateFirst (fun u => u.firebase_uid == uid)
      (applyUserSet w now) db.users
    match users2.find? (fun u => u.firebase_uid == uid) with
    | none => .error (.http 500 "TypeError")
    | some u2 => .ok (u2, { db with users := users2 })

/-- The `$set` of `update_property`: apply the non-`None` payload
fields and refresh `updated_at`. -/
def applyPropertySet (w : PropertyUpdate) (now : Nat) (x : Property) :
    Property :=
  { x with
    title := w.title.getD x.title
    description := w.description.getD x.description
    current_price := w.current_price.getD x.current_price
    bedrooms := match w.bedrooms with | some v => some v | none => x.bedrooms
    bathrooms := match w.bathrooms with
      | some v => some v | none => x.bathrooms
    area_sqft := match w.area_sqft with
      | some v => some v | none => x.area_sqft
    amenities := w.amenities.getD x.amenities
    images := w.images.getD x.images
    documents := w.documents.getD x.documents
    virtual_tour_url := match w.virtual_tour_url with
      | some v => some v | none => x.virtual_tour_url
    updated_at := now }

/-- The `$push` document rewrite of `update_property`: append one
"Price updated" entry at price `c`. -/
def pushEntry (c : ℚ) (now : Nat) (p : Property) : Property :=
  { p with price_history := p.price_history ++
      [{ price := c, changed_at := now, reason := some "Price updated" }] }

/-- The conditional `$push` of `update_property`, viewed on the single
matched document: append a "Price updated" entry exactly when
`current_price` is supplied and differs from the stored value. -/
def pushPrice (w : PropertyUpdate) (now : Nat) (x : Property) : Property :=
  match w.current_price with
  | some c => if c ≠ x.current_price then pushEntry c now x else x
  | none => x

/-- `PUT /properties/{property_id}` (`update_property`): 404 when
absent; when `current_price` is supplied and differs from the stored
value, first `$push` a "Price updated" `price_history` entry, then
`$set` the payload fields plus `updated_at`; return the re-fetched
document. -/
def update_property (db : DB) (now : Nat) (pid : String)
    (w : PropertyUpdate) : Except Err (Property × DB) :=
  match db.findProperty pid with
  | none => .error (.http 404 "Property not found")
  | some prop =>
    let props1 :=
      match w.current_price with
      | some c =>
        if c ≠ prop.current_price then
          updateFirst (fun p => p.property_id == pid) (pushEntry c now)
            db.properties
        else db.properties
      | none => db.properties
    let props2 := updateFirst (fun p => p.property_id == pid)
      (applyPropertySet w now) props1
    match props2.find? (fun p => p.property_id == pid) with
    | none => .error (.http 500 "TypeError")
    | some p2 => .ok (p2, { db with properties := props2 })

/-- `GET /listings/{listing_id}` (`get_listing`): 404 when absent;
otherwise `$inc` `views_count` by 1 and return the document as read
*before* the increment. -/
def get_listing (db : DB) (lid : String) : Except Err (Listing × DB) :=
  match db.findListing lid with
  | none => .error (.http 404 "Listing not found")
  | some listing =>
    let listings2 := updateFirst (fun l => l.listing_id == lid)
      (fun l => { l with views_count := l.views_count + 1 }) db.listings
    .ok (listing, { db with listings := listings2 })

/-- The `$set` of `update_listing`: apply the non-`None` payload fields,
refresh `updated_at`, and set `verified_at := now` when the payload sets
`status` to verified.  The source never writes `verified_by_admin_uid`
here (it is not even a payload field). -/
def applyListingSet (w : ListingUpdate) (now : Nat) (x : Listing) :
    Listing :=
  { x with
    status := w.status.getD x.status
    rejection_reason := match w.rejection_reason with
      | some v => some v | none => x.rejection_reason
    expires_at := match w.expires_at with
      | some v => some v | none => x.expires_at
    verified_at := if w.status == some ListingStatus.verified
      then some now else x.verified_at
    updated_at := now }

/-- `PUT /listings/{listing_id}` (`update_listing`): 404 when absent;
`$set` the payload fields plus `updated_at` (plus `verified_at` when
`status` is set to verified); return the re-fetched document. -/
def update_listing (db : DB) (now : Nat) (lid : String)
    (w : ListingUpdate) : Except Err (Listing × DB) :=
  match db.findListing lid with
  | none => .error (.http 404 "Listing not found")
  | some _ =>
    let listings2 := updateFirst (fun l => l.listing_id == lid)
      (applyListingSet w now) db.listings
    match listings2.find? (fun l => l.listing_id == lid) with
    | none => .error (.http 500 "TypeError")
    | some l2 => .ok (l2, { db with listings := listings2 })

/-- The `$set` of `verify_document` on the document itself: status,
verifying admin, `verified_at := now`, and `rejection_reason` only when
it is supplied and truthy (Python `if rejection_reason:` is false for
`None` and for the empty string). -/
def applyDocumentVerify (admin_uid : String) (status : VerificationStatus)
    (rejection_reason : Option String) (now : Nat)
    (d : VerificationDocument) : VerificationDocument :=
  { d with
    status := status
    verified_by_admin_uid := some admin_uid
    verified_at := some now
    rejection_reason := if rejection_reason.getD "" ≠ ""
      then rejection_reason else d.rejection_reason }

/-- `PUT /verification-documents/{document_id}/verify`
(`verify_document`): 404 when absent; `$set` the verification fields on
the document; then, when the new status is verified and the document's
(pre-fetched) type is "identity_proof", `$set` the owning user's
`verification_status` to verified. -/
def verify_document (db : DB) (now : Nat) (did : String)
    (admin_uid : String) (status : VerificationStatus)
    (rejection_reason : Option String) : Except Err DB :=
  match db.findDocument did with
  | none => .error (.http 404 "Document not found")
  | some doc =>
    let docs2 := updateFirst (fun d => d.document_id == did)
      (applyDocumentVerify admin_uid status rejection_reason now)
      db.verification_documents
    let users2 :=
      if status = VerificationStatus.verified ∧
          doc.document_type = "identity_proof" then
        updateFirst (fun u => u.firebase_uid == doc.user_firebase_uid)
          (fun u => { u with verification_status := .verified }) db.users
      else db.users
    .ok { db with verification_documents := docs2, users := users2 }

/-- `PUT /messages/{message_id}/read` (`mark_message_read`):
`update_one` setting `status := read` and `read_at := now`
unconditionally, then 404 when `modified_count == 0`. -/
def mark_message_read (db : DB) (now : Nat) (mid : String) :
    Except Err DB :=
  let p := fun m : Message => m.message_id == mid
  let f := fun m : Message =>
    { m with status := MessageStatus.read, read_at := some now }
  if modifiedCount p f db.messages = 0 then
    .error (.http 404 "Message not found")
  else .ok { db with messages := updateFirst p f db.messages }

/-- `PUT /notifications/{notification_id}/read`
(`mark_notification_read`): `update_one` setting `is_read := true`,
then 404 when `modified_count == 0`. -/
def mark_notification_read (db : DB) (nid : String) : Except Err DB :=
  let p := fun n : Notification => n.notification_id == nid
  let f := fun n : Notification => { n with is_read := true }
  if modifiedCount p f db.notifications = 0 then
    .error (.http 404 "Notification not found")
  else .ok { db with notifications := updateFirst p f db.notifications }

/-- `PUT /admin/users/{firebase_uid}/suspend` (`suspend_user`):
`update_one` setting `is_suspended`, then 404 when
`modified_count == 0`. -/
def suspend_user (db : DB) (uid : String) (is_suspended : Bool) :
    Except Err DB :=
  let p := fun u : User => u.firebase_uid == uid
  let f := fun u : User => { u with is_suspended := is_suspended }
  if modifiedCount p f db.users = 0 then
    .error (.http 404 "User not found")
  else .ok { db with users := updateFirst p f db.users }

/-- `PUT /admin/users/{firebase_uid}/ban` (`ban_user`): `update_one`
setting `is_banned`, then 404 when `modified_count == 0`. -/
def ban_user (db : DB) (uid : String) (is_banned : Bool) :
    Except Err DB :=
  let p := fun u : User => u.firebase_uid == uid
  let f := fun u : User => { u with is_banned := is_banned }
  if modifiedCount p f db.users = 0 then
    .error (.http 404 "User not found")
  else .ok { db with users := updateFirst p f db.users }

/-- `K` successive single-listing fetches, each performed by
`get_listing`, threading the store and stopping at the first failure. -/
def getListingK (lid : String) : DB → Nat → Except Err DB
  | db, 0 => .ok db
  | db, k + 1 =>
    match get_listing db lid with
    | .error e => .error e
    | .ok (_, db2) => getListingK lid db2 k

/-- A run of `update_property` calls against property `pid`, each
supplying a `current_price` that differs from the value stored at the
moment of that update (the scenario of the price-history property). -/
inductive PriceUpdateSeq (pid : String) :
    DB → List (Nat × PropertyUpdate) → DB → Prop where
  | nil (db : DB) : PriceUpdateSeq pid db [] db
  | cons (a b f : DB) (n : Nat) (w : PropertyUpdate) (c : ℚ)
      (x y : Property) (r : List (Nat × PropertyUpdate)) :
      a.findProperty pid = some x →
      w.current_price = some c →
      c ≠ x.current_price →
      update_property a n pid w = Except.ok (y, b) →
      PriceUpdateSeq pid b r f →
      PriceUpdateSeq pid a ((n, w) :: r) f

/-- The last `price_history` entry records the current price. -/
def lastPriceOk (p : Property) : Prop :=
  p.price_history.getLast?.map PriceHistory.price = some p.current_price

/-! ### Concrete fixtures used by witnesses and counterexamples -/

/-- A location used by the concrete examples. -/
def sampleLoc : Location :=
  { street := "1 Main St", city := "Springfield", state := "IL"
    zip_code := "62701" }

/-- C2 fixture: a verification-document creation payload. -/
def vd2create : VerificationDocumentCreate :=
  { document_id := "D2", user_firebase_uid := "U2"
    document_type := "identity_proof", document_url := "http" }

/-- C2 fixture: the document as stored by the first creation. -/
def vd2stored : VerificationDocument :=
  { document_id := "D2", user_firebase_uid := "U2"
    document_type := "identity_proof", document_url := "http"
    created_at := 0 }

/-- C2 fixture: the store after the first creation. -/
def db2after : DB := { verification_documents := [vd2stored] }

/-- C2 fixture: a second payload reusing the same `document_id`. -/
def vd2dup : VerificationDocumentCreate :=
  { document_id := "D2", user_firebase_uid := "U9"
    document_type := "business_license", document_url := "other" }

/-- C3 fixture: a pending listing with no admin verification data. -/
def listing3 : Listing :=
  { listing_id := "L3", property_id := "P3", lister_firebase_uid := "U3"
    created_at := 0, updated_at := 0 }

/-- C3 fixture: store holding `listing3`. -/
def db3 : DB := { listings := [listing3] }

/-- C4 fixture: a notification that is already read. -/
def notif4 : Notification :=
  { notification_id := "N4", title := "t", message := "m"
    notification_type := "system", is_read := true, created_at := 0 }

/-- C4 fixture: store holding `notif4`. -/
def db4 : DB := { notifications := [notif4] }

/-- C4 fixture: an unread notification. -/
def notif4b : Notification :=
  { notification_id := "N5", title := "t", message := "m"
    notification_type := "system", created_at := 0 }

/-- C4 fixture: an unsuspended user. -/
def user4 : User :=
  { firebase_uid := "U4", email := "e", name := "n"
    role := UserRole.buyer, created_at := 0, updated_at := 0 }

/-- C4 fixture: store holding `notif4b` and `user4`. -/
def db4b : DB := { notifications := [notif4b], users := [user4] }

/-- C5 fixture: a message already marked read at time 10. -/
def msg5 : Message :=
  { message_id := "M5", sender_firebase_uid := "A"
    receiver_firebase_uid := "B", content := "hi"
    status := MessageStatus.read, sent_at := 0, read_at := some 10 }

/-- C5 fixture: store holding `msg5`. -/
def db5 : DB := { messages := [msg5] }

/-- C6 fixture: an identity-proof document owned by user U6. -/
def doc6 : VerificationDocument :=
  { document_id := "D6", user_firebase_uid := "U6"
    document_type := "identity_proof", document_url := "u"
    created_at := 0 }

/-- C6 fixture: a non-identity-proof document owned by user U6. -/
def doc6b : VerificationDocument :=
  { document_id := "D7", user_firebase_uid := "U6"
    document_type := "business_license", document_url := "u"
    created_at := 0 }

/-- C6 fixture: the owning user, not yet verified. -/
def user6 : User :=
  { firebase_uid := "U6", email := "e", name := "n"
    role := UserRole.lister, created_at := 0, updated_at := 0 }

/-- C6 fixture: store holding both documents and the user. -/
def db6 : DB :=
  { users := [user6], verification_documents := [doc6, doc6b] }

/-- C7/C10 fixture: a listing with 41 accumulated views. -/
def listing10 : Listing :=
  { listing_id := "LX", property_id := "PX", lister_firebase_uid := "UX"
    views_count := 41, created_at := 0, updated_at := 0 }

/-- C7/C10 fixture: store holding `listing10`. -/
def db10 : DB := { listings := [listing10] }

/-- C10 fixture: `listing10` after one view-count increment. -/
def listing10inc : Listing :=
  { listing_id := "LX", property_id := "PX", lister_firebase_uid := "UX"
    views_count := 42, created_at := 0, updated_at := 0 }

/-- C10 fixture: the store after one fetch of `listing10`. -/
def db10inc : DB := { listings := [listing10inc] }

/-- C9 fixture: a review creation payload with the given id and rating. -/
def rev9 (rid : String) (q : ℚ) : ReviewCreate :=
  { review_id := rid, reviewer_firebase_uid := "V"
    target_type := ReviewTarget.property, target_id := "P"
    rating := q, comment := "ok" }

/-- C8 fixture: a user with a phone number on file. -/
def user8 : User :=
  { firebase_uid := "U8", email := "e", name := "old"
    role := UserRole.buyer, phone := some "1", created_at := 0
    updated_at := 0 }

/-- C8 fixture: a property whose history has the single seeded entry. -/
def prop8 : Property :=
  { property_id := "P8", title := "T", description := "D"
    property_type := PropertyType.residential, current_price := 50
    price_history := [{ price := 50, changed_at := 0
                        reason := some "Initial listing" }]
    location := sampleLoc, created_at := 0, updated_at := 0 }

/-- C8 fixture: store holding `user8` and `prop8`. -/
def db8 : DB := { users := [user8], properties := [prop8] }

/-- C1 fixture: a property creation payload at price 100. -/
def plW : PropertyCreate :=
  { property_id := "P1", title := "T", description := "D"
    property_type := PropertyType.residential, current_price := 100
    location := sampleLoc }

/-- C1 fixture: the property as stored by `create_property` at time 0. -/
def prW : Property :=
  { property_id := "P1", title := "T", description := "D"
    property_type := PropertyType.residential, current_price := 100
    price_history := [{ price := 100, changed_at := 0
                        reason := some "Initial listing" }]
    location := sampleLoc, created_at := 0, updated_at := 0 }

/-- C1 fixture: store after the creation. -/
def db1W : DB := { properties := [prW] }

/-- C1 fixture: an update payload setting the price to 7. -/
def w7 : PropertyUpdate := { current_price := some 7 }

/-- C1 fixture: the property after the price update at time 1. -/
def p2W : Property :=
  { property_id := "P1", title := "T", description := "D"
    property_type := PropertyType.residential, current_price := 7
    price_history := [{ price := 100, changed_at := 0
                        reason := some "Initial listing" },
                      { price := 7, changed_at := 1
                        reason := some "Price updated" }]
    location := sampleLoc, created_at := 0, updated_at := 1 }

/-- C1 fixture: store after the price update. -/
def dbFW : DB := { properties := [p2W] }

/-! ### Generic store lemmas -/

/-- `updateFirst` rewrites exactly the first match: the document
`find_one` returns afterwards is the rewritten one, provided the
rewrite preserves the key. -/
theorem find?_updateFirst {α : Type} (p : α → Bool) (f : α → α) :
    ∀ (l : List α) (x : α), l.find? p = some x → p (f x) = true →
      (updateFirst p f l).find? p = some (f x) := by
  intro l
  induction l with
  | nil => intro x hx _; simp at hx
  | cons a t ih =>
    intro x hx hpf
    by_cases hpa : p a
    · rw [List.find?_cons_of_pos _ hpa] at hx
      cases hx
      simp [updateFirst, hpa, List.find?_cons_of_pos _ hpf]
    · rw [List.find?_cons_of_neg _ (by simpa using hpa)] at hx
      simp only [updateFirst, if_neg hpa]
      rw [List.find?_cons_of_neg _ (by simpa using hpa)]
      exact ih x hx hpf

/-- `modified_count` is zero exactly when no matching document would be
changed by the write. -/
theorem modifiedCount_eq_zero_iff {α : Type} [DecidableEq α]
    (p : α → Bool) (f : α → α) :
    ∀ l : List α, modifiedCount p f l = 0 ↔
      (∀ x, l.find? p = some x → f x = x) := by
  intro l
  induction l with
  | nil => simp [modifiedCount]
  | cons a t ih =>
    by_cases hpa : p a
    · rw [List.find?_cons_of_pos _ hpa]
      simp only [modifiedCount, if_pos hpa]
      constructor
      · intro h x hx
        cases hx
        by_contra hne
        simp [if_neg hne] at h
      · intro h
        simp [h a rfl]
    · rw [List.find?_cons_of_neg _ (by simpa using hpa)]
      simpa [modifiedCount, if_neg hpa] using ih

/-- A write that fixes the first match leaves the collection unchanged. -/
theorem updateFirst_eq_self {α : Type} (p : α → Bool) (f : α → α) :
    ∀ l : List α, (∀ x, l.find? p = some x → f x = x) →
      updateFirst p f l = l := by
  intro l
  induction l with
  | nil => intro _; rfl
  | cons a t ih =>
    intro h
    by_cases hpa : p a
    · rw [List.find?_cons_of_pos _ hpa] at h
      simp [updateFirst, if_pos hpa, h a rfl]
    · rw [List.find?_cons_of_neg _ (by simpa using hpa)] at h
      simp [updateFirst, if_neg hpa, ih h]

/-- `modified_count` is nonzero exactly when some matching document is
actually changed by the write. -/
theorem modifiedCount_ne_zero_iff {α : Type} [DecidableEq α]
    (p : α → Bool) (f : α → α) (l : List α) :
    modifiedCount p f l ≠ 0 ↔ ∃ x, l.find? p = some x ∧ f x ≠ x := by
  rw [Ne, modifiedCount_eq_zero_iff]
  push_neg
  rfl

/-- Setting `is_read := true` fixes a notification iff it was read. -/
theorem notification_read_fix_iff (n : Notification) :
    ({ n with is_read := true } = n) ↔ n.is_read = true := by
  cases n
  simp [eq_comm]

/-- Setting `is_suspended := b` fixes a user iff the flag already is `b`. -/
theorem user_suspend_fix_iff (u : User) (b : Bool) :
    ({ u with is_suspended := b } = u) ↔ u.is_suspended = b := by
  cases u
  simp [eq_comm]

/-- Setting `is_banned := b` fixes a user iff the flag already is `b`. -/
theorem user_ban_fix_iff (u : User) (b : Bool) :
    ({ u with is_banned := b } = u) ↔ u.is_banned = b := by
  cases u
  simp [eq_comm]

/-- The mark-read write fixes a message iff it was already read at the
very same timestamp. -/
theorem message_read_fix_iff (m : Message) (now : Nat) :
    ({ m with status := MessageStatus.read, read_at := some now } = m) ↔
      (m.status = MessageStatus.read ∧ m.read_at = some now) := by
  cases m
  simp [eq_comm]

/-- Specification of a successful `update_user` on a present user:
the handler returns and stores exactly the `$set`-rewritten document. -/
theorem update_user_spec (db : DB) (now : Nat) (uid : String)
    (w : UserUpdate) (x : User) (hf : db.findUser uid = some x) :
    ∃ db2, update_user db now uid w = .ok (applyUserSet w now x, db2) ∧
      db2.findUser uid = some (applyUserSet w now x) := by
  have hf' : List.find? (fun u : User => u.firebase_uid == uid) db.users =
      some x := hf
  have hpx :=
    List.find?_some (p := fun u : User => u.firebase_uid == uid) hf'
  have hkey : (applyUserSet w now x).firebase_uid = x.firebase_uid := rfl
  have hupd :
      (updateFirst (fun u => u.firebase_uid == uid) (applyUserSet w now)
        db.users).find? (fun u => u.firebase_uid == uid) =
        some (applyUserSet w now x) :=
    find?_updateFirst _ _ db.users x hf' hpx
  simp only [update_user, hf, hupd]
  exact ⟨_, rfl, by simpa [DB.findUser] using hupd⟩

/-- Specification of a successful `update_property` on a present
property: the stored and returned document is the `$set`-rewrite of the
(possibly price-history-extended) document. -/
theorem update_property_spec (db : DB) (now : Nat) (pid : String)
    (w : PropertyUpdate) (x : Property) (hf : db.findProperty pid = some x) :
    ∃ db2, update_property db now pid w =
        .ok (applyPropertySet w now (pushPrice w now x), db2) ∧
      db2.findProperty pid =
        some (applyPropertySet w now (pushPrice w now x)) := by
  have hf' : List.find? (fun p : Property => p.property_id == pid)
      db.properties = some x := hf
  have hpx :=
    List.find?_some (p := fun p : Property => p.property_id == pid) hf'
  simp only [update_property, pushPrice, hf]
  cases hcp : w.current_price <;> dsimp only
  case none =>
    have h2 := find?_updateFirst (fun p : Property => p.property_id == pid)
      (applyPropertySet w now) db.properties x hf' hpx
    rw [h2]
    exact ⟨_, rfl, by simpa [DB.findProperty] using h2⟩
  case some c =>
    by_cases hne : c ≠ x.current_price
    · rw [if_pos hne, if_pos hne]
      have h1 := find?_updateFirst (fun p : Property => p.property_id == pid)
        (pushEntry c now) db.properties x hf' hpx
      have h2 := find?_updateFirst (fun p : Property => p.property_id == pid)
        (applyPropertySet w now) _ _ h1 hpx
      rw [h2]
      exact ⟨_, rfl, by simpa [DB.findProperty] using h2⟩
    · rw [if_neg hne, if_neg hne]
      have h2 := find?_updateFirst (fun p : Property => p.property_id == pid)
        (applyPropertySet w now) db.properties x hf' hpx
      rw [h2]
      exact ⟨_, rfl, by simpa [DB.findProperty] using h2⟩

/-- The conditional `$push` touches only `price_history`: every other
field of the document is untouched. -/
theorem pushPrice_frame (w : PropertyUpdate) (now : Nat) (x : Property) :
    (pushPrice w now x).property_id = x.property_id ∧
    (pushPrice w now x).title = x.title ∧
    (pushPrice w now x).description = x.description ∧
    (pushPrice w now x).property_type = x.property_type ∧
    (pushPrice w now x).current_price = x.current_price ∧
    (pushPrice w now x).location = x.location ∧
    (pushPrice w now x).bedrooms = x.bedrooms ∧
    (pushPrice w now x).bathrooms = x.bathrooms ∧
    (pushPrice w now x).area_sqft = x.area_sqft ∧
    (pushPrice w now x).year_built = x.year_built ∧
    (pushPrice w now x).amenities = x.amenities ∧
    (pushPrice w now x).images = x.images ∧
    (pushPrice w now x).documents = x.documents ∧
    (pushPrice w now x).virtual_tour_url = x.virtual_tour_url ∧
    (pushPrice w now x).created_at = x.created_at ∧
    (pushPrice w now x).updated_at = x.updated_at := by
  unfold pushPrice
  cases hcp : w.current_price with
  | none => simp
  | some c =>
    by_cases hne : c = x.current_price
    · simp [hne, pushEntry]
    · simp [hne, pushEntry]

/-- Specification of a successful `update_listing` on a present
listing: the handler returns and stores exactly the `$set`-rewritten
document. -/
theorem update_listing_spec (db : DB) (now : Nat) (lid : String)
    (w : ListingUpdate) (x : Listing) (hf : db.findListing lid = some x) :
    ∃ db2, update_listing db now lid w = .ok (applyListingSet w now x, db2) ∧
      db2.findListing lid = some (applyListingSet w now x) := by
  have hf' : List.find? (fun l : Listing => l.listing_id == lid)
      db.listings = some x := hf
  have hpx :=
    List.find?_some (p := fun l : Listing => l.listing_id == lid) hf'
  have hupd :
      (updateFirst (fun l => l.listing_id == lid) (applyListingSet w now)
        db.listings).find? (fun l => l.listing_id == lid) =
        some (applyListingSet w now x) :=
    find?_updateFirst _ _ db.listings x hf' hpx
  simp only [update_listing, hf, hupd]
  exact ⟨_, rfl, by simpa [DB.findListing] using hupd⟩

/-- Specification of a successful `get_listing`: the response is the
pre-increment document and the store holds the incremented one. -/
theorem get_listing_spec (db : DB) (lid : String) (x : Listing)
    (hf : db.findListing lid = some x) :
    ∃ db2, get_listing db lid = .ok (x, db2) ∧
      db2.findListing lid = some { x with views_count := x.views_count + 1 } := by
  have hf' : List.find? (fun l : Listing => l.listing_id == lid)
      db.listings = some x := hf
  have hpx :=
    List.find?_some (p := fun l : Listing => l.listing_id == lid) hf'
  have hupd :
      (updateFirst (fun l => l.listing_id == lid)
        (fun l => { l with views_count := l.views_count + 1 })
        db.listings).find? (fun l => l.listing_id == lid) =
        some { x with views_count := x.views_count + 1 } :=
    find?_updateFirst _ _ db.listings x hf' hpx
  simp only [get_listing, hf]
  exact ⟨_, rfl, by simpa [DB.findListing] using hupd⟩

/-- `get_listing` on an absent id is a plain 404 with no store write. -/
theorem get_listing_none (db : DB) (lid : String)
    (hf : db.findListing lid = none) :
    get_listing db lid = .error (.http 404 "Listing not found") := by
  simp only [get_listing, hf]

/-! ### Claims -/

/-- C2: duplicate-key creation. The pre-checked handlers do return the
documented 400 Conflict (shown here for `create_user`), but
`create_verification_document` performs no pre-check and does not catch
the store's duplicate-key rejection, which therefore surfaces as a
generic 500 server error instead of the claimed 400-equivalent
Conflict; the first creation with the key succeeds and the failed
insert leaves the store unchanged. -/
theorem duplicate_key_insert_surfaces_500 :
    create_verification_document ({} : DB) 0 vd2create =
      .ok (vd2stored, db2after) ∧
    create_verification_document db2after 1 vd2dup =
      .error Err.duplicateKey ∧
    Err.statusCode Err.duplicateKey = 500 ∧
    Err.statusCode Err.duplicateKey ≠ 400 ∧
    create_user db6 2 { firebase_uid := "U6", email := "x", name := "y"
                        role := UserRole.buyer } =
      .error (.http 400 "User already exists") := by
  decide

/-- C3 counterexample: updating a pending listing's status to verified
stores `verified_at` but leaves `verified_by_admin_uid` unset, so the
two fields are not set together by this transition. -/
theorem verified_transition_leaves_admin_uid_unset :
    (update_listing db3 5 "L3"
        { status := some ListingStatus.verified }).toOption.map
      (fun r => (r.1.status, r.1.verified_at, r.1.verified_by_admin_uid)) =
      some (ListingStatus.verified, some 5, none) := by
  decide

/-- C3 (amended): an update whose payload sets status to verified
stores a listing whose `verified_at` is set to now, while
`verified_by_admin_uid` is left at its prior value (the update endpoint
never writes it). -/
theorem verified_transition_sets_verified_at (db : DB) (now : Nat)
    (lid : String) (w : ListingUpdate) (x : Listing)
    (hf : db.findListing lid = some x)
    (hs : w.status = some ListingStatus.verified) :
    ∃ db2, update_listing db now lid w =
        .ok (applyListingSet w now x, db2) ∧
      (applyListingSet w now x).status = ListingStatus.verified ∧
      (applyListingSet w now x).verified_at = some now ∧
      (applyListingSet w now x).verified_by_admin_uid =
        x.verified_by_admin_uid ∧
      db2.findListing lid = some (applyListingSet w now x) := by
  obtain ⟨db2, heq, hst⟩ := update_listing_spec db now lid w x hf
  refine ⟨db2, heq, ?_, ?_, rfl, hst⟩
  · simp [applyListingSet, hs]
  · simp [applyListingSet, hs]

/-- Witness for C3's amended theorem at a concrete pending listing. -/
theorem verified_transition_sets_verified_at_witness :
    ∃ db2, update_listing db3 5 "L3"
        { status := some ListingStatus.verified } =
        .ok (applyListingSet { status := some ListingStatus.verified } 5
          listing3, db2) ∧
      (applyListingSet { status := some ListingStatus.verified } 5
        listing3).status = ListingStatus.verified ∧
      (applyListingSet { status := some ListingStatus.verified } 5
        listing3).verified_at = some 5 ∧
      (applyListingSet { status := some ListingStatus.verified } 5
        listing3).verified_by_admin_uid = listing3.verified_by_admin_uid ∧
      db2.findListing "L3" = some (applyListingSet
        { status := some ListingStatus.verified } 5 listing3) :=
  verified_transition_sets_verified_at db3 5 "L3" _ listing3 (by decide) rfl

/-- C4 counterexample: marking an *existing but already-read*
notification as read fails with the Not-Found error instead of
succeeding, so the flip is not idempotent and NotFound is not reserved
for nonexistent ids. -/
theorem mark_read_existing_notification_404 :
    db4.notifications.find? (fun n => n.notification_id == "N4") =
      some notif4 ∧
    notif4.is_read = true ∧
    mark_notification_read db4 "N4" =
      .error (.http 404 "Notification not found") := by
  decide

/-- C4 (amended): notification mark-read and user suspend/ban succeed
exactly when they change the stored value; a no-op flip (already-read
notification, suspend/ban equal to the current flag) fails with the
same Not-Found error as a nonexistent id, because the handlers treat
`modified_count == 0` as Not-Found. -/
theorem status_flip_succeeds_iff_changes :
    (∀ (db : DB) (nid : String),
      (∃ d, mark_notification_read db nid = Except.ok d) ↔
        (∃ n, db.notifications.find?
            (fun n => n.notification_id == nid) = some n ∧
          n.is_read = false)) ∧
    (∀ (db : DB) (uid : String) (b : Bool),
      (∃ d, suspend_user db uid b = Except.ok d) ↔
        (∃ u, db.users.find? (fun u => u.firebase_uid == uid) = some u ∧
          u.is_suspended ≠ b)) ∧
    (∀ (db : DB) (uid : String) (b : Bool),
      (∃ d, ban_user db uid b = Except.ok d) ↔
        (∃ u, db.users.find? (fun u => u.firebase_uid == uid) = some u ∧
          u.is_banned ≠ b)) := by
  refine ⟨?_, ?_, ?_⟩
  · intro db nid
    by_cases h : modifiedCount (fun n : Notification =>
        n.notification_id == nid)
        (fun n => { n with is_read := true }) db.notifications = 0
    · simp only [mark_notification_read, if_pos h]
      constructor
      · rintro ⟨d, hd⟩
        exact absurd hd (by simp)
      · rintro ⟨n, hfn, hnr⟩
        have hfix := (modifiedCount_eq_zero_iff _ _ _).1 h n hfn
        rw [notification_read_fix_iff] at hfix
        simp [hfix] at hnr
    · simp only [mark_notification_read, if_neg h]
      constructor
      · intro _
        obtain ⟨n, hfn, hne⟩ := (modifiedCount_ne_zero_iff _ _ _).1 h
        rw [Ne, notification_read_fix_iff] at hne
        exact ⟨n, hfn, by simpa using hne⟩
      · intro _
        exact ⟨_, rfl⟩
  · intro db uid b
    by_cases h : modifiedCount (fun u : User => u.firebase_uid == uid)
        (fun u => { u with is_suspended := b }) db.users = 0
    · simp only [suspend_user, if_pos h]
      constructor
      · rintro ⟨d, hd⟩
        exact absurd hd (by simp)
      · rintro ⟨u, hfu, hnb⟩
        have hfix := (modifiedCount_eq_zero_iff _ _ _).1 h u hfu
        rw [user_suspend_fix_iff] at hfix
        exact absurd hfix hnb
    · simp only [suspend_user, if_neg h]
      constructor
      · intro _
        obtain ⟨u, hfu, hne⟩ := (modifiedCount_ne_zero_iff _ _ _).1 h
        rw [Ne, user_suspend_fix_iff] at hne
        exact ⟨u, hfu, hne⟩
      · intro _
        exact ⟨_, rfl⟩
  · intro db uid b
    by_cases h : modifiedCount (fun u : User => u.firebase_uid == uid)
        (fun u => { u with is_banned := b }) db.users = 0
    · simp only [ban_user, if_pos h]
      constructor
      · rintro ⟨d, hd⟩
        exact absurd hd (by simp)
      · rintro ⟨u, hfu, hnb⟩
        have hfix := (modifiedCount_eq_zero_iff _ _ _).1 h u hfu
        rw [user_ban_fix_iff] at hfix
        exact absurd hfix hnb
    · simp only [ban_user, if_neg h]
      constructor
      · intro _
        obtain ⟨u, hfu, hne⟩ := (modifiedCount_ne_zero_iff _ _ _).1 h
        rw [Ne, user_ban_fix_iff] at hne
        exact ⟨u, hfu, hne⟩
      · intro _
        exact ⟨_, rfl⟩

/-- Witness for C4's amended theorem: the flips do succeed when they
change the stored value. -/
theorem status_flip_succeeds_iff_changes_witness :
    (∃ d, mark_notification_read db4b "N5" = Except.ok d) ∧
    (∃ d, suspend_user db4b "U4" true = Except.ok d) ∧
    (∃ d, ban_user db4b "U4" true = Except.ok d) :=
  ⟨(status_flip_succeeds_iff_changes.1 db4b "N5").2
      ⟨notif4b, by decide, by decide⟩,
   (status_flip_succeeds_iff_changes.2.1 db4b "U4" true).2
      ⟨user4, by decide, by decide⟩,
   (status_flip_succeeds_iff_changes.2.2 db4b "U4" true).2
      ⟨user4, by decide, by decide⟩⟩

/-- C5 counterexample: a message already read at time 10, marked read
again at time 20, gets its `read_at` overwritten to 20 — `read_at` is
not set exactly once. -/
theorem remark_read_overwrites_read_at :
    msg5.read_at = some 10 ∧
    (mark_message_read db5 20 "M5").toOption.map
      (fun d => d.messages.map Message.read_at) = some [some 20] := by
  decide

/-- C5 (amended): every successful mark-read sets `status := read` and
overwrites `read_at` with the current time; in particular a repeated
mark-read at a different time changes the stored `read_at` again. -/
theorem mark_message_read_overwrites (db : DB) (now : Nat) (mid : String)
    (m : Message) (t : Nat)
    (hf : db.messages.find? (fun x => x.message_id == mid) = some m)
    (hr : m.read_at = some t) (hne : t ≠ now) :
    ∃ db2, mark_message_read db now mid = .ok db2 ∧
      db2.messages.find? (fun x => x.message_id == mid) =
        some { m with status := MessageStatus.read, read_at := some now } := by
  have h0 : modifiedCount (fun x : Message => x.message_id == mid)
      (fun x => { x with status := MessageStatus.read, read_at := some now })
      db.messages ≠ 0 := by
    intro h
    have hfix := (modifiedCount_eq_zero_iff _ _ _).1 h m hf
    rw [message_read_fix_iff] at hfix
    rw [hr] at hfix
    exact hne (Option.some.inj hfix.2)
  have hpm : (fun x : Message => x.message_id == mid) m = true :=
    List.find?_some (p := fun x : Message => x.message_id == mid) hf
  have hupd := find?_updateFirst (fun x : Message => x.message_id == mid)
    (fun x => { x with status := MessageStatus.read, read_at := some now })
    db.messages m hf hpm
  simp only [mark_message_read, if_neg h0]
  exact ⟨_, rfl, hupd⟩

/-- Witness for C5's amended theorem at a concrete already-read
message. -/
theorem mark_message_read_overwrites_witness :
    ∃ db2, mark_message_read db5 20 "M5" = .ok db2 ∧
      db2.messages.find? (fun x => x.message_id == "M5") =
        some { msg5 with status := MessageStatus.read
                         read_at := some 20 } :=
  mark_message_read_overwrites db5 20 "M5" msg5 10 (by decide) rfl
    (by decide)

/-- C6: verifying an identity-proof document as verified cascades the
owning user's `verification_status` to verified; verifying a document
whose type is not identity proof, or rejecting any document, leaves the
user collection entirely unchanged. -/
theorem verify_document_cascade :
    (∀ (db : DB) (now : Nat) (did admin : String) (rr : Option String)
        (doc : VerificationDocument) (u : User),
      db.findDocument did = some doc →
      doc.document_type = "identity_proof" →
      db.findUser doc.user_firebase_uid = some u →
      ∃ db2, verify_document db now did admin VerificationStatus.verified
          rr = .ok db2 ∧
        db2.findUser doc.user_firebase_uid =
          some { u with verification_status := VerificationStatus.verified }) ∧
    (∀ (db : DB) (now : Nat) (did admin : String)
        (status : VerificationStatus) (rr : Option String)
        (doc : VerificationDocument),
      db.findDocument did = some doc →
      (status ≠ VerificationStatus.verified ∨
        doc.document_type ≠ "identity_proof") →
      ∃ db2, verify_document db now did admin status rr = .ok db2 ∧
        db2.users = db.users) := by
  constructor
  · intro db now did admin rr doc u hfd htype hfu
    have hfu' : List.find?
        (fun x : User => x.firebase_uid == doc.user_firebase_uid)
        db.users = some u := hfu
    have hpu : (fun x : User => x.firebase_uid == doc.user_firebase_uid)
        u = true :=
      List.find?_some
        (p := fun x : User => x.firebase_uid == doc.user_firebase_uid) hfu'
    have hupd := find?_updateFirst
      (fun x : User => x.firebase_uid == doc.user_firebase_uid)
      (fun x => { x with verification_status := VerificationStatus.verified })
      db.users u hfu' hpu
    simp only [verify_document, hfd]
    refine ⟨_, rfl, ?_⟩
    simp only [DB.findUser]
    split_ifs with hcc
    · exact hupd
    · exact absurd ⟨by simp, htype⟩ hcc
  · intro db now did admin status rr doc hfd hcond
    have hnc : ¬(status = VerificationStatus.verified ∧
        doc.document_type = "identity_proof") := by
      rcases hcond with h | h
      · exact fun hc => h hc.1
      · exact fun hc => h hc.2
    simp only [verify_document, hfd]
    refine ⟨_, rfl, ?_⟩
    dsimp only
    rw [if_neg hnc]

/-- Witness for C6: the cascade fires on a concrete identity-proof
document and stays silent for a non-identity document and for a
rejection. -/
theorem verify_document_cascade_witness :
    (∃ db2, verify_document db6 7 "D6" "ADM" VerificationStatus.verified
        none = .ok db2 ∧
      db2.findUser doc6.user_firebase_uid =
        some { user6 with
               verification_status := VerificationStatus.verified }) ∧
    (∃ db2, verify_document db6 7 "D7" "ADM" VerificationStatus.verified
        none = .ok db2 ∧ db2.users = db6.users) ∧
    (∃ db2, verify_document db6 7 "D6" "ADM" VerificationStatus.rejected
        (some "bad") = .ok db2 ∧ db2.users = db6.users) :=
  ⟨verify_document_cascade.1 db6 7 "D6" "ADM" none doc6 user6 (by decide)
      rfl (by decide),
   verify_document_cascade.2 db6 7 "D7" "ADM" VerificationStatus.verified
      none doc6b (by decide) (Or.inr (by decide)),
   verify_document_cascade.2 db6 7 "D6" "ADM" VerificationStatus.rejected
      (some "bad") doc6 (by decide) (Or.inl (by decide))⟩

/-- C7: fetching an existing listing K times in a row increments the
stored `views_count` by exactly K, and fetching a nonexistent id is a
404 that performs no write. -/
theorem listing_view_count :
    (∀ (db : DB) (lid : String), db.findListing lid = none →
      get_listing db lid = .error (.http 404 "Listing not found")) ∧
    (∀ (db : DB) (lid : String) (l : Listing) (K : Nat),
      db.findListing lid = some l →
      ∃ db2 l2, getListingK lid db K = .ok db2 ∧
        db2.findListing lid = some l2 ∧
        l2.views_count = l.views_count + K) := by
  constructor
  · exact get_listing_none
  · intro db lid l K
    induction K generalizing db l with
    | zero =>
      intro hf
      exact ⟨db, l, rfl, hf, rfl⟩
    | succ k ih =>
      intro hf
      obtain ⟨db2, heq, hst⟩ := get_listing_spec db lid l hf
      obtain ⟨db3, l3, hrun, hf3, hv⟩ := ih db2 _ hst
      refine ⟨db3, l3, ?_, hf3, ?_⟩
      · show getListingK lid db (k + 1) = .ok db3
        simp only [getListingK, heq]
        exact hrun
      · have hv1 : ({ l with views_count := l.views_count + 1 } :
            Listing).views_count = l.views_count + 1 := rfl
        rw [hv1] at hv
        omega

/-- Witness for C7: three fetches of a listing with 41 views leave 44
in the store, and a fetch of a missing id is the 404. -/
theorem listing_view_count_witness :
    get_listing ({} : DB) "Z" = .error (.http 404 "Listing not found") ∧
    (∃ db2 l2, getListingK "LX" db10 3 = .ok db2 ∧
      db2.findListing "LX" = some l2 ∧
      l2.views_count = listing10.views_count + 3) :=
  ⟨listing_view_count.1 {} "Z" rfl,
   listing_view_count.2 db10 "LX" listing10 3 (by decide)⟩

/-- C9: review creation fails with the 400 rating-validation error
exactly when the rating lies outside [1, 5] (an in-range rating never
produces that error, and an error path stores nothing); ratings 0 and 6
fail, the boundary ratings 1 and 5 succeed. -/
theorem review_rating_validation :
    (∀ (db : DB) (now : Nat) (r : ReviewCreate),
      create_review db now r =
          .error (.http 400 "Rating must be between 1 and 5") ↔
        (r.rating < 1 ∨ 5 < r.rating)) ∧
    (create_review ({} : DB) 0 (rev9 "R1" 1)).isOk = true ∧
    (create_review ({} : DB) 0 (rev9 "R5" 5)).isOk = true ∧
    create_review ({} : DB) 0 (rev9 "R0" 0) =
      .error (.http 400 "Rating must be between 1 and 5") ∧
    create_review ({} : DB) 0 (rev9 "R6" 6) =
      .error (.http 400 "Rating must be between 1 and 5") := by
  refine ⟨?_, by decide, by decide, by decide, by decide⟩
  intro db now r
  constructor
  · intro h
    by_contra hnot
    simp only [create_review] at h
    rw [if_neg hnot] at h
    by_cases hdup : db.reviews.any
        (fun x => x.review_id == r.review_id) = true
    · simp [insertUnique, hdup] at h
    · simp [insertUnique, hdup] at h
  · intro h
    simp only [create_review]
    rw [if_pos h]

/-- Witness for C9: the validation direction applied at rating 9. -/
theorem review_rating_validation_witness :
    create_review ({} : DB) 3 (rev9 "RW" 9) =
      .error (.http 400 "Rating must be between 1 and 5") :=
  (review_rating_validation.1 {} 3 (rev9 "RW" 9)).2
    (Or.inr (by norm_num [rev9]))

/-- C10: a successful single-listing fetch returns the document as it
was read before the view-count increment — the stored copy ends up one
view ahead of the returned one, deterministically. -/
theorem get_listing_returns_pre_increment (db : DB) (lid : String)
    (lr : Listing) (db2 : DB)
    (h : get_listing db lid = .ok (lr, db2)) :
    db.findListing lid = some lr ∧
    ∃ l2, db2.findListing lid = some l2 ∧
      l2.views_count = lr.views_count + 1 := by
  cases hf : db.findListing lid with
  | none =>
    rw [get_listing_none db lid hf] at h
    exact absurd h (by simp)
  | some x =>
    obtain ⟨db2', heq, hst⟩ := get_listing_spec db lid x hf
    rw [heq] at h
    have hx : x = lr ∧ db2' = db2 := by
      simpa [Prod.ext_iff] using h
    obtain ⟨hx1, hx2⟩ := hx
    subst hx1
    subst hx2
    exact ⟨rfl, ⟨_, hst, rfl⟩⟩

/-- Witness for C10 at a listing with 41 views: the response carries
41, the store 42. -/
theorem get_listing_returns_pre_increment_witness :
    db10.findListing "LX" = some listing10 ∧
    ∃ l2, db10inc.findListing "LX" = some l2 ∧
      l2.views_count = listing10.views_count + 1 :=
  get_listing_returns_pre_increment db10 "LX" listing10 db10inc (by decide)

/-- C8 counterexample: a property update whose payload contains only
`current_price` also modifies `price_history` — a field that is not
even part of the update payload — so updates do not modify *only* the
payload fields plus the update timestamp. -/
theorem update_modifies_price_history_not_in_payload :
    prop8.price_history.length = 1 ∧
    (update_property db8 3 "P8" { current_price := some 60 }).toOption.map
      (fun r => r.1.price_history.length) = some 2 := by
  decide

/-- C8 (amended): an update applies exactly the non-absent payload
fields plus the update timestamp, leaving every omitted field at its
prior value, except for the documented cascade: a Property update whose
`current_price` differs from the stored value additionally appends one
"Price updated" entry to `price_history`. Shown for `update_user`
(no cascade) and `update_property` (price-history cascade). -/
theorem update_frame :
    (∀ (db : DB) (now : Nat) (uid : String) (w : UserUpdate) (x : User),
      db.findUser uid = some x →
      ∃ db2, update_user db now uid w = .ok (applyUserSet w now x, db2) ∧
        (w.name = none → (applyUserSet w now x).name = x.name) ∧
        (w.phone = none → (applyUserSet w now x).phone = x.phone) ∧
        (w.profile_picture = none →
          (applyUserSet w now x).profile_picture = x.profile_picture) ∧
        (w.two_factor_enabled = none →
          (applyUserSet w now x).two_factor_enabled =
            x.two_factor_enabled) ∧
        (applyUserSet w now x).firebase_uid = x.firebase_uid ∧
        (applyUserSet w now x).email = x.email ∧
        (applyUserSet w now x).role = x.role ∧
        (applyUserSet w now x).verification_status =
          x.verification_status ∧
        (applyUserSet w now x).is_suspended = x.is_suspended ∧
        (applyUserSet w now x).is_banned = x.is_banned ∧
        (applyUserSet w now x).created_at = x.created_at ∧
        (applyUserSet w now x).updated_at = now) ∧
    (∀ (db : DB) (now : Nat) (pid : String) (w : PropertyUpdate)
        (x : Property),
      db.findProperty pid = some x →
      ∃ db2, update_property db now pid w =
          .ok (applyPropertySet w now (pushPrice w now x), db2) ∧
        (w.title = none →
          (applyPropertySet w now (pushPrice w now x)).title = x.title) ∧
        (w.description = none →
          (applyPropertySet w now (pushPrice w now x)).description =
            x.description) ∧
        (w.current_price = none →
          (applyPropertySet w now (pushPrice w now x)).current_price =
              x.current_price ∧
            (applyPropertySet w now (pushPrice w now x)).price_history =
              x.price_history) ∧
        (∀ c, w.current_price = some c → c ≠ x.current_price →
          (applyPropertySet w now (pushPrice w now x)).price_history =
            x.price_history ++ [{ price := c, changed_at := now
                                  reason := some "Price updated" }]) ∧
        (∀ c, w.current_price = some c → c = x.current_price →
          (applyPropertySet w now (pushPrice w now x)).price_history =
            x.price_history) ∧
        (w.bedrooms = none →
          (applyPropertySet w now (pushPrice w now x)).bedrooms =
            x.bedrooms) ∧
        (w.bathrooms = none →
          (applyPropertySet w now (pushPrice w now x)).bathrooms =
            x.bathrooms) ∧
        (w.area_sqft = none →
          (applyPropertySet w now (pushPrice w now x)).area_sqft =
            x.area_sqft) ∧
        (w.amenities = none →
          (applyPropertySet w now (pushPrice w now x)).amenities =
            x.amenities) ∧
        (w.images = none →
          (applyPropertySet w now (pushPrice w now x)).images =
            x.images) ∧
        (w.documents = none →
          (applyPropertySet w now (pushPrice w now x)).documents =
            x.documents) ∧
        (w.virtual_tour_url = none →
          (applyPropertySet w now (pushPrice w now x)).virtual_tour_url =
            x.virtual_tour_url) ∧
        (applyPropertySet w now (pushPrice w now x)).property_id =
          x.property_id ∧
        (applyPropertySet w now (pushPrice w now x)).property_type =
          x.property_type ∧
        (applyPropertySet w now (pushPrice w now x)).location =
          x.location ∧
        (applyPropertySet w now (pushPrice w now x)).year_built =
          x.year_built ∧
        (applyPropertySet w now (pushPrice w now x)).created_at =
          x.created_at ∧
        (applyPropertySet w now (pushPrice w now x)).updated_at = now) := by
  constructor
  · intro db now uid w x hf
    obtain ⟨db2, heq, -⟩ := update_user_spec db now uid w x hf
    refine ⟨db2, heq, ?_, ?_, ?_, ?_, rfl, rfl, rfl, rfl, rfl, rfl, rfl,
      rfl⟩
    · intro h
      simp [applyUserSet, h]
    · intro h
      simp [applyUserSet, h]
    · intro h
      simp [applyUserSet, h]
    · intro h
      simp [applyUserSet, h]
  · intro db now pid w x hf
    obtain ⟨db2, heq, -⟩ := update_property_spec db now pid w x hf
    obtain ⟨hpid, htit, hdes, hpt, hcpx, hloc, hbed, hbat, hare, hyea,
      hame, himg, hdoc, hvir, hcre, -⟩ := pushPrice_frame w now x
    have hphist : (applyPropertySet w now (pushPrice w now x)).price_history
        = (pushPrice w now x).price_history := rfl
    refine ⟨db2, heq, ?_, ?_, ?_, ?_, ?_, ?_, ?_, ?_, ?_, ?_, ?_, ?_,
      hpid, hpt, hloc, hyea, hcre, rfl⟩
    · intro h
      simp [applyPropertySet, h, htit]
    · intro h
      simp [applyPropertySet, h, hdes]
    · intro h
      constructor
      · simp [applyPropertySet, h, hcpx]
      · rw [hphist]
        simp [pushPrice, h]
    · intro c hc hne
      rw [hphist]
      simp [pushPrice, pushEntry, hc, hne]
    · intro c hc hceq
      rw [hphist]
      simp [pushPrice, hc, hceq]
    · intro h
      simp [applyPropertySet, h, hbed]
    · intro h
      simp [applyPropertySet, h, hbat]
    · intro h
      simp [applyPropertySet, h, hare]
    · intro h
      simp [applyPropertySet, h, hame]
    · intro h
      simp [applyPropertySet, h, himg]
    · intro h
      simp [applyPropertySet, h, hdoc]
    · intro h
      simp [applyPropertySet, h, hvir]

/-- Witness for C8's amended theorem: frame-respecting updates of a
concrete user and property both succeed. -/
theorem update_frame_witness :
    (∃ db2, update_user db8 2 "U8" { name := some "new" } =
      Except.ok (applyUserSet { name := some "new" } 2 user8, db2)) ∧
    (∃ db2, update_property db8 3 "P8" { current_price := some 60 } =
      Except.ok (applyPropertySet { current_price := some 60 } 3
        (pushPrice { current_price := some 60 } 3 prop8), db2)) := by
  obtain ⟨d1, h1, -⟩ :=
    update_frame.1 db8 2 "U8" { name := some "new" } user8 (by decide)
  obtain ⟨d2, h2, -⟩ :=
    update_frame.2 db8 3 "P8" { current_price := some 60 } prop8
      (by decide)
  exact ⟨⟨d1, h1⟩, ⟨d2, h2⟩⟩

/-- Invariant carried through a run of distinct-price updates: the
price history grows by exactly one "Price updated" entry per update, in
order, and the last-entry-matches-current-price invariant is
preserved. -/
theorem priceSeq_invariant {pid : String} {db dbF : DB}
    {upds : List (Nat × PropertyUpdate)}
    (hs : PriceUpdateSeq pid db upds dbF) :
    ∀ z, db.findProperty pid = some z →
      ∃ y, dbF.findProperty pid = some y ∧
        y.price_history.map PriceHistory.price =
          z.price_history.map PriceHistory.price ++
            upds.map (fun s => s.2.current_price.getD 0) ∧
        y.price_history.map PriceHistory.reason =
          z.price_history.map PriceHistory.reason ++
            upds.map (fun _ => some "Price updated") ∧
        y.price_history.length = z.price_history.length + upds.length ∧
        (lastPriceOk z → lastPriceOk y) := by
  induction hs with
  | nil db =>
    intro z hz
    exact ⟨z, hz, by simp, by simp, by simp, id⟩
  | cons a b f n w c x y r hfx hcp hne hupd hrest ih =>
    intro z hz
    rw [hfx] at hz
    injection hz with hz
    subst hz
    obtain ⟨b2, heq, hst⟩ := update_property_spec a n pid w x hfx
    rw [heq] at hupd
    have hyb : applyPropertySet w n (pushPrice w n x) = y ∧ b2 = b := by
      simpa [Prod.ext_iff] using hupd
    obtain ⟨-, hb⟩ := hyb
    subst hb
    have hph : (applyPropertySet w n (pushPrice w n x)).price_history =
        x.price_history ++ [{ price := c, changed_at := n
                              reason := some "Price updated" }] := by
      show (pushPrice w n x).price_history = _
      unfold pushPrice
      rw [hcp]
      show (if c ≠ x.current_price then pushEntry c n x
        else x).price_history = _
      rw [if_pos hne]
      rfl
    have hcpz : (applyPropertySet w n (pushPrice w n x)).current_price =
        c := by
      simp [applyPropertySet, hcp]
    obtain ⟨v, hfv, hmp, hmr, hlen, hlast⟩ := ih _ hst
    have hlast2 : lastPriceOk (applyPropertySet w n (pushPrice w n x)) := by
      unfold lastPriceOk
      rw [hph, hcpz, List.getLast?_concat]
      rfl
    refine ⟨v, hfv, ?_, ?_, ?_, fun _ => hlast hlast2⟩
    · rw [hmp, hph]
      simp [hcp]
    · rw [hmr, hph]
      simp
    · rw [hlen, hph]
      simp [List.length_append]
      omega
/-- C1: after creating a property at price `p0` and applying `N`
price updates whose values each differ from the stored price at the
time of the update, the stored `price_history` has exactly `N + 1`
entries — the seeded "Initial listing" entry followed by one
"Price updated" entry per update, in insertion order — and the last
entry's price equals the stored `current_price`. -/
theorem price_history_after_updates (db0 db1 dbF : DB) (t0 : Nat)
    (pl : PropertyCreate) (pr : Property)
    (upds : List (Nat × PropertyUpdate))
    (hc : create_property db0 t0 pl = .ok (pr, db1))
    (hs : PriceUpdateSeq pl.property_id db1 upds dbF) :
    ∃ y, dbF.findProperty pl.property_id = some y ∧
      y.price_history.map PriceHistory.price =
        pl.current_price :: upds.map (fun s => s.2.current_price.getD 0) ∧
      y.price_history.length = upds.length + 1 ∧
      y.price_history.map PriceHistory.reason =
        some "Initial listing" ::
          upds.map (fun _ => some "Price updated") ∧
      y.price_history.getLast?.map PriceHistory.price =
        some y.current_price := by
  cases hpre : db0.findProperty pl.property_id with
  | some q =>
    rw [create_property] at hc
    rw [hpre] at hc
    exact absurd hc (by simp)
  | none =>
    have hnone : List.find?
        (fun p : Property => p.property_id == pl.property_id)
        db0.properties = none := hpre
    have hany : db0.properties.any
        (fun p => p.property_id == pl.property_id) = false := by
      simp only [List.any_eq_false]
      intro p hp
      exact List.find?_eq_none.mp hnone p hp
    simp only [create_property, hpre, insertUnique] at hc
    rw [hany] at hc
    simp only [Bool.false_eq_true, if_false] at hc
    rw [Except.ok.injEq, Prod.mk.injEq] at hc
    obtain ⟨hpr1, hpr2⟩ := hc
    subst hpr2
    have hf1 : ({ db0 with properties := db0.properties ++
        [{ property_id := pl.property_id, title := pl.title
           description := pl.description
           property_type := pl.property_type
           current_price := pl.current_price
           price_history := [{ price := pl.current_price, changed_at := t0
                               reason := some "Initial listing" }]
           location := pl.location, bedrooms := pl.bedrooms
           bathrooms := pl.bathrooms, area_sqft := pl.area_sqft
           year_built := pl.year_built, amenities := pl.amenities
           images := pl.images, documents := pl.documents
           virtual_tour_url := pl.virtual_tour_url
           created_at := t0, updated_at := t0 }] } : DB).findProperty
        pl.property_id = some
        { property_id := pl.property_id, title := pl.title
          description := pl.description
          property_type := pl.property_type
          current_price := pl.current_price
          price_history := [{ price := pl.current_price, changed_at := t0
                              reason := some "Initial listing" }]
          location := pl.location, bedrooms := pl.bedrooms
          bathrooms := pl.bathrooms, area_sqft := pl.area_sqft
          year_built := pl.year_built, amenities := pl.amenities
          images := pl.images, documents := pl.documents
          virtual_tour_url := pl.virtual_tour_url
          created_at := t0, updated_at := t0 } := by
      show List.find? _ (db0.properties ++ _) = _
      rw [List.find?_append, hnone]
      simp
    obtain ⟨y, hfy, hmp, hmr, hlen, hlast⟩ := priceSeq_invariant hs _ hf1
    refine ⟨y, hfy, ?_, ?_, ?_, ?_⟩
    · rw [hmp]
      simp
    · rw [hlen]
      simp
      omega
    · rw [hmr]
      simp
    · exact hlast (by simp [lastPriceOk])

/-- Witness for C1: creation at price 100 followed by one update to
price 7 leaves two history entries, ending at the current price. -/
theorem price_history_after_updates_witness :
    ∃ y, dbFW.findProperty plW.property_id = some y ∧
      y.price_history.map PriceHistory.price =
        plW.current_price ::
          [((1 : Nat), w7)].map (fun s => s.2.current_price.getD 0) ∧
      y.price_history.length = [((1 : Nat), w7)].length + 1 ∧
      y.price_history.map PriceHistory.reason =
        some "Initial listing" ::
          [((1 : Nat), w7)].map (fun _ => some "Price updated") ∧
      y.price_history.getLast?.map PriceHistory.price =
        some y.current_price :=
  price_history_after_updates {} db1W dbFW 0 plW prW [(1, w7)] (by decide)
    (PriceUpdateSeq.cons db1W dbFW dbFW 1 w7 7 prW p2W [] (by decide)
      (by decide) (by decide) (by decide) (PriceUpdateSeq.nil dbFW))

end Server
